import Mathlib

/-!
Verification of the news dashboard component (`src/News.tsx`).

The component is a read-only React view. The logic embedded here is exactly
the computational content of the component body: the request-URL builders
(`newsUrl`, `briefingUrl`, `alertsUrl`), the filter option lists
(`categories`, `assets`, `botBaseAsset`), the sentiment tallies
(`bullishCount`, `bearishCount`, `neutralCount`), the derived display
helpers (`impactLabel`, `formatTimeAgo`), the sentiment-bar widths, and the
display truncations applied to alert and reason lists in the JSX.

Modelling conventions:
- JavaScript strings become `String`; timestamps become milliseconds since
  the epoch as `Int` (the code only ever uses `Date.getTime()` differences).
- JavaScript numbers used in `impactLabel` and the sentiment bar are
  modelled exactly: integer scores as `Int`, the continuous `biasScore` and
  the percentage widths as `ℚ`.
- A `URLSearchParams` built from an object literal keeps insertion order,
  so a request is modelled as a path plus an ordered key/value list.
- Optional values (`bot?.symbol`, `article.reasons?`, `alerts?.alerts`)
  become `Option`; JavaScript truthiness of a string is "non-empty".
-/

namespace News

/-- Sentiment classification of an article: `'bullish' | 'bearish' | 'neutral'`
from the `NewsArticle` interface. -/
inductive Sentiment
  | bullish
  | bearish
  | neutral
deriving DecidableEq, Repr

/-- Importance level of an article: `'high' | 'medium' | 'low'`. -/
inductive Importance
  | high
  | medium
  | low
deriving DecidableEq, Repr

/-- The `NewsArticle` interface of `News.tsx`.  `timestamp` is the
publication time in epoch milliseconds (the component parses the string
with `new Date` and only ever uses `getTime()`); `reasons` is the optional
`reasons?: string[]` field. -/
structure NewsArticle where
  id : String
  title : String
  summary : String
  sentiment : Sentiment
  category : String
  assets : List String
  timestamp : Int
  source : String
  importance : Importance
  url : String
  impactScore : Int
  volatilityScore : Int
  biasScore : ℚ
  reasons : Option (List String)
deriving DecidableEq, Repr

/-- The `NewsAlerts` response type: `{generatedAt, minutes, minImpact, alerts}`. -/
structure NewsAlerts where
  generatedAt : String
  minutes : Int
  minImpact : Int
  alerts : List NewsArticle
deriving DecidableEq, Repr

/-- A request URL as the component builds it: the path and the ordered
key/value pairs handed to `URLSearchParams` (object-literal insertion
order). -/
structure UrlRequest where
  path : String
  params : List (String × String)
deriving DecidableEq, Repr

/-- JavaScript `String.prototype.trim`: drop leading and trailing
whitespace.  Defined over the character list so it evaluates by kernel
reduction. -/
def jsTrim (s : String) : String :=
  ⟨((s.data.dropWhile Char.isWhitespace).reverse.dropWhile Char.isWhitespace).reverse⟩

/-- JavaScript `s.split('/')[0]`: the prefix of `s` before the first `'/'`
(all of `s` when there is none). -/
def jsSplitHeadSlash (s : String) : String :=
  ⟨s.data.takeWhile fun c => c != '/'⟩

/-- JavaScript `String.prototype.toUpperCase` (ASCII-faithful, which covers
every ticker symbol involved). -/
def jsToUpper (s : String) : String :=
  ⟨s.data.map Char.toUpper⟩

/-- The `botBaseAsset` memo: `(bot?.symbol || 'BTC/USDT').split('/')[0].toUpperCase()`.
The `||` falls back on `undefined` and on the empty string (both falsy). -/
def botBaseAsset (botSymbol : Option String) : String :=
  let sym := match botSymbol with
    | some s => if s = "" then "BTC/USDT" else s
    | none => "BTC/USDT"
  jsToUpper (jsSplitHeadSlash sym)

/-- The `newsUrl` memo: `/api/news` with `asset`, `category`, `hours: '48'`,
`limit: '80'`, and `q` exactly when the trimmed search text is truthy
(non-empty). -/
def newsUrl (selectedAsset selectedCategory searchText : String) : UrlRequest :=
  let q := jsTrim searchText
  { path := "/api/news"
    params :=
      [("asset", selectedAsset), ("category", selectedCategory),
       ("hours", "48"), ("limit", "80")] ++
      (if q = "" then [] else [("q", q)]) }

/-- The `briefingUrl` memo: `/api/news/briefing` with `asset` and `hours: '24'`. -/
def briefingUrl (selectedAsset : String) : UrlRequest :=
  { path := "/api/news/briefing"
    params := [("asset", selectedAsset), ("hours", "24")] }

/-- The `alertsUrl` memo: `/api/news/alerts` with `asset`, `minutes: '180'`,
`minImpact: '75'`. -/
def alertsUrl (selectedAsset : String) : UrlRequest :=
  { path := "/api/news/alerts"
    params := [("asset", selectedAsset), ("minutes", "180"), ("minImpact", "75")] }

/-- The `categories` array offered as filter buttons. -/
def categories : List String :=
  ["all", "market", "regulation", "technology", "defi", "security", "adoption"]

/-- The fixed enumerated category set of the spec data model:
\x7bmarket, regulation, technology, defi, security, adoption, other\x7d.
This definition follows the spec words, to be compared with `categories`. -/
def specCategories : List String :=
  ["market", "regulation", "technology", "defi", "security", "adoption", "other"]

/-- The `assets` memo: asset filter buttons as (key, label) pairs; the
"For you" label interpolates `botBaseAsset`. -/
def assets (base : String) : List (String × String) :=
  [("FOR_YOU", "For you (" ++ base ++ ")"),
   ("BTC", "BTC"), ("ETH", "ETH"), ("XRP", "XRP"), ("ALL", "All")]

/-- `bullishCount`: `news.filter(n => n.sentiment === 'bullish').length`. -/
def bullishCount (news : List NewsArticle) : Nat :=
  (news.filter fun n => n.sentiment == Sentiment.bullish).length

/-- `bearishCount`: `news.filter(n => n.sentiment === 'bearish').length`. -/
def bearishCount (news : List NewsArticle) : Nat :=
  (news.filter fun n => n.sentiment == Sentiment.bearish).length

/-- `neutralCount`: `news.filter(n => n.sentiment === 'neutral').length`. -/
def neutralCount (news : List NewsArticle) : Nat :=
  (news.filter fun n => n.sentiment == Sentiment.neutral).length

/-- Result of `impactLabel`: the `{text, cls}` object. -/
structure ImpactLabel where
  text : String
  cls : String
deriving DecidableEq, Repr

/-- The `impactLabel` helper.  Fields in order: text, cls.  The numeric
literals 0.25 and -0.25 are exact in ℚ. -/
def impactLabel (a : NewsArticle) : ImpactLabel :=
  if a.volatilityScore ≥ 70 then ⟨"Volatility spike", "bg-rose-500/20 text-rose-300"⟩
  else if a.biasScore ≥ (0.25 : ℚ) then ⟨"Risk-on", "bg-emerald-500/20 text-emerald-300"⟩
  else if a.biasScore ≤ (-0.25 : ℚ) then ⟨"Risk-off", "bg-amber-500/20 text-amber-300"⟩
  else ⟨"Mixed", "bg-slate-500/20 text-slate-300"⟩

/-- The `formatTimeAgo` helper on epoch milliseconds.  `Math.floor` of a
division of integers is floor division (`Int.fdiv`), also for negative
differences. -/
def formatTimeAgo (nowMs timestampMs : Int) : String :=
  let diffMs := nowMs - timestampMs
  let diffMins := Int.fdiv diffMs 60000
  if diffMins < 1 then "Just now"
  else if diffMins < 60 then toString diffMins ++ "m ago"
  else
    let diffHours := Int.fdiv diffMins 60
    if diffHours < 24 then toString diffHours ++ "h ago"
    else toString (Int.fdiv diffHours 24) ++ "d ago"

/-- Reason tags rendered for an article in the headline list:
`article.reasons?.length ? article.reasons.slice(0, 4).map(...) : null`. -/
def renderedReasons (a : NewsArticle) : List String :=
  match a.reasons with
  | none => []
  | some rs => if rs.length ≠ 0 then rs.take 4 else []

/-- Alert cards rendered in the High Impact Alerts panel:
`(alerts?.alerts ?? []).slice(0, 6)`. -/
def renderedAlerts (alerts : Option NewsAlerts) : List NewsArticle :=
  (match alerts with
    | some w => w.alerts
    | none => []).take 6

/-- Number of binary digits of a natural number, by structural recursion on
a fuel argument (`n` itself is enough fuel), so that it evaluates by kernel
reduction.  `nbits 0 = 0` and `2 ^ (nbits n - 1) ≤ n < 2 ^ nbits n` for
`n ≥ 1`. -/
def bitsFuel : Nat → Nat → Nat
  | 0, _ => 0
  | f+1, n => if n = 0 then 0 else bitsFuel f (n / 2) + 1

/-- Binary digit count of a natural number. -/
def nbits (n : Nat) : Nat := bitsFuel n n

/-- A nonnegative IEEE-754 binary64 value, represented by its exact dyadic
value `mantissa * 2 ^ exp`.  The representation is value-level (a pair is
not required to be normalized); all operations below round to 53
significant bits exactly as binary64 round-to-nearest-even does in the
normal range.  Subnormals and overflow are not modelled: the component's
width arithmetic (counts and list lengths below 2^53) never reaches them. -/
structure F64 where
  mantissa : Nat
  exp : Int
deriving DecidableEq, Repr

/-- The exact rational value of a binary64 value. -/
def F64.toRat (x : F64) : ℚ := (x.mantissa : ℚ) * (2 : ℚ) ^ x.exp

/-- Round the rational `p / q` (with `q > 0`) to the nearest natural
number, ties to even — the rounding IEEE-754 applies to the infinitely
precise result. -/
def rdivNE (p q : Nat) : Nat :=
  let d := p / q
  let r := p % q
  if 2 * r < q then d
  else if q < 2 * r then d + 1
  else if d % 2 = 0 then d else d + 1

/-- Decide `a / b ≥ 2 ^ e` over the exact rational `a / b` (`b > 0`). -/
def divGePow2 (a b : Nat) (e : Int) : Bool :=
  if 0 ≤ e then decide (b * 2 ^ e.toNat ≤ a) else decide (b ≤ a * 2 ^ (-e).toNat)

/-- IEEE-754 binary64 division `a / b` of two exactly representable
naturals (`b ≠ 0`): the exact quotient lies in `[2 ^ e, 2 ^ (e + 1))` for
the floor base-2 logarithm `e` (located via `nbits` and one comparison),
and the 53-bit mantissa is the quotient scaled to `[2 ^ 52, 2 ^ 53)` and
rounded to nearest, ties to even. -/
def fdivB64 (a b : Nat) : F64 :=
  if a = 0 then ⟨0, 0⟩
  else
    let e0 : Int := (nbits a : Int) - (nbits b : Int)
    let e : Int := if divGePow2 a b e0 then e0 else e0 - 1
    let m := rdivNE (a * 2 ^ (52 - e).toNat) (b * 2 ^ (e - 52).toNat)
    ⟨m, e - 52⟩

/-- IEEE-754 binary64 multiplication of a value by the exactly
representable constant 100: the exact product is kept when it fits in 53
bits and is otherwise rounded to nearest, ties to even. -/
def mul100B64 (x : F64) : F64 :=
  if x.mantissa = 0 then ⟨0, 0⟩
  else
    let p := x.mantissa * 100
    let k := nbits p
    if k ≤ 53 then ⟨p, x.exp⟩
    else ⟨rdivNE p (2 ^ (k - 53)), x.exp + (k - 53 : Nat)⟩

/-- Width of the green segment of the sentiment bar as the program
computes it, in IEEE-754 binary64 arithmetic:
`news.length > 0 ? (bullishCount / news.length) * 100 : 0`.  The two
operands of the division are integers (exact in binary64); the division
and the multiplication by 100 each round once. -/
def bullishWidth (news : List NewsArticle) : ℚ :=
  if news.length > 0 then (mul100B64 (fdivB64 (bullishCount news) news.length)).toRat
  else 0

/-- Width of the slate segment of the sentiment bar, in binary64
arithmetic like `bullishWidth`. -/
def neutralWidth (news : List NewsArticle) : ℚ :=
  if news.length > 0 then (mul100B64 (fdivB64 (neutralCount news) news.length)).toRat
  else 0

/-- Width of the red segment of the sentiment bar, in binary64 arithmetic
like `bullishWidth`. -/
def bearishWidth (news : List NewsArticle) : ℚ :=
  if news.length > 0 then (mul100B64 (fdivB64 (bearishCount news) news.length)).toRat
  else 0

/-- Idealized exact-arithmetic value of the bullish width expression
`(bullishCount / news.length) * 100`, with no IEEE rounding; to be
compared with `bullishWidth`, the rounded value the program computes. -/
def bullishWidthExact (news : List NewsArticle) : ℚ :=
  if news.length > 0 then ((bullishCount news : ℚ) / (news.length : ℚ)) * 100 else 0

/-- Idealized exact-arithmetic value of the neutral width expression. -/
def neutralWidthExact (news : List NewsArticle) : ℚ :=
  if news.length > 0 then ((neutralCount news : ℚ) / (news.length : ℚ)) * 100 else 0

/-- Idealized exact-arithmetic value of the bearish width expression. -/
def bearishWidthExact (news : List NewsArticle) : ℚ :=
  if news.length > 0 then ((bearishCount news : ℚ) / (news.length : ℚ)) * 100 else 0

/-- C1, counterexample: in the component's initial state (`selectedAsset`
is `'FOR_YOU'`, `selectedCategory` is `'all'`, empty search text) all three
request URLs carry `asset=FOR_YOU`; the sentinel is not resolved to the
bot's base ticker before the request is built. -/
theorem forYou_reaches_every_request_url :
    (newsUrl "FOR_YOU" "all" "").params.lookup "asset" = some "FOR_YOU" ∧
    (briefingUrl "FOR_YOU").params.lookup "asset" = some "FOR_YOU" ∧
    (alertsUrl "FOR_YOU").params.lookup "asset" = some "FOR_YOU" := by
  decide

/-- C1, amended: the presentation layer performs no sentinel resolution:
each of the three request URLs carries the selected asset key verbatim as
its `asset` parameter, and `FOR_YOU` is one of the selectable keys, so a
request built while the "For you" filter is selected carries
`asset=FOR_YOU`; `botBaseAsset` only feeds the "For you" button label. -/
theorem asset_param_is_selected_key (a c s base : String) :
    (newsUrl a c s).params.lookup "asset" = some a ∧
    (briefingUrl a).params.lookup "asset" = some a ∧
    (alertsUrl a).params.lookup "asset" = some a ∧
    (assets base).map Prod.fst = ["FOR_YOU", "BTC", "ETH", "XRP", "ALL"] := by
  exact ⟨rfl, rfl, rfl, rfl⟩

/-- C2, counterexample: the spec's enumerated category `other` is not one
of the dashboard's selectable filter values. -/
theorem other_category_not_selectable :
    "other" ∈ specCategories ∧ "other" ∉ categories := by
  decide

/-- C2, amended: the selectable category filter values are exactly "all"
together with the members of the spec's enumerated category set except
"other", which the dashboard does not offer. -/
theorem categories_are_all_plus_spec_minus_other (c : String) :
    c ∈ categories ↔ c = "all" ∨ (c ∈ specCategories ∧ c ≠ "other") := by
  constructor
  · intro h
    fin_cases h <;> simp [specCategories]
  · rintro (rfl | ⟨h, hne⟩)
    · decide
    · fin_cases h <;> simp_all [categories]

/-- C3: for every selected asset, category and search text, the news URL
carries exactly the parameters asset, category, hours=48 and limit=80, plus
q exactly when the trimmed search text is non-empty (with the trimmed text
as value); the briefing URL carries exactly asset and hours=24; the alerts
URL carries exactly asset, minutes=180 and minImpact=75. -/
theorem request_param_contract (a c s : String) :
    (newsUrl a c s).path = "/api/news" ∧
    (newsUrl a c s).params.map Prod.fst =
      (if jsTrim s = "" then ["asset", "category", "hours", "limit"]
       else ["asset", "category", "hours", "limit", "q"]) ∧
    (newsUrl a c s).params.lookup "asset" = some a ∧
    (newsUrl a c s).params.lookup "category" = some c ∧
    (newsUrl a c s).params.lookup "hours" = some "48" ∧
    (newsUrl a c s).params.lookup "limit" = some "80" ∧
    (newsUrl a c s).params.lookup "q" =
      (if jsTrim s = "" then none else some (jsTrim s)) ∧
    (briefingUrl a).path = "/api/news/briefing" ∧
    (briefingUrl a).params.map Prod.fst = ["asset", "hours"] ∧
    (briefingUrl a).params.lookup "hours" = some "24" ∧
    (alertsUrl a).path = "/api/news/alerts" ∧
    (alertsUrl a).params.map Prod.fst = ["asset", "minutes", "minImpact"] ∧
    (alertsUrl a).params.lookup "minutes" = some "180" ∧
    (alertsUrl a).params.lookup "minImpact" = some "75" := by
  by_cases h : jsTrim s = "" <;>
    simp [newsUrl, briefingUrl, alertsUrl, List.lookup, h]

/-- C4: the displayed Bullish, Bearish and Neutral tallies equal the number
of articles whose sentiment field is bullish, bearish and neutral
respectively. -/
theorem tallies_count_sentiments (news : List NewsArticle) :
    bullishCount news = (news.map NewsArticle.sentiment).count Sentiment.bullish ∧
    bearishCount news = (news.map NewsArticle.sentiment).count Sentiment.bearish ∧
    neutralCount news = (news.map NewsArticle.sentiment).count Sentiment.neutral := by
  refine ⟨?_, ?_, ?_⟩ <;>
    simp [bullishCount, bearishCount, neutralCount, List.count_eq_countP,
      List.countP_map, List.countP_eq_length_filter, List.filter_map,
      Function.comp_def]

/-- C6: the reason tags rendered for an article are exactly the first
min(4, length) entries of its reasons list in original order; an article
with an absent or empty reasons list renders none. -/
theorem rendered_reasons_first_four (a : NewsArticle) :
    renderedReasons a = (a.reasons.getD []).take 4 ∧
    (renderedReasons a).length ≤ 4 := by
  rcases ha : a.reasons with _ | ⟨_ | ⟨r, rs⟩⟩ <;>
    simp [renderedReasons, ha, List.length_take_le]

/-- C7: the High Impact Alerts panel renders exactly the first
min(6, length) entries of the alerts array in server order, and the alerts
request itself carries no limiting parameter (only asset, minutes,
minImpact), so truncation happens only in the display. -/
theorem alerts_display_truncation (w : NewsAlerts) (sel : String) :
    renderedAlerts (some w) = w.alerts.take 6 ∧
    (renderedAlerts (some w)).length = min 6 w.alerts.length ∧
    (alertsUrl sel).params.map Prod.fst = ["asset", "minutes", "minImpact"] := by
  refine ⟨rfl, ?_, rfl⟩
  simp [renderedAlerts, List.length_take]

theorem fdiv_natCast (m n : Nat) : Int.fdiv (m : Int) (n : Int) = ((m / n : Nat) : Int) :=
  (Int.ofNat_fdiv m n).symm

theorem toString_natCast (m : Nat) : toString ((m : Int)) = toString m := rfl

/-- C5: for every timestamp not later than now, `formatTimeAgo` returns
"Just now" under one whole elapsed minute, "Nm ago" with N the floor of
elapsed minutes when 1 ≤ N < 60, "Nh ago" with N the floor of elapsed
hours when 1 ≤ N < 24, and "Nd ago" with N the floor of elapsed days
otherwise, all computed from the publication timestamp. -/
theorem formatTimeAgo_past (nowMs ts : Int) (h : ts ≤ nowMs) :
    formatTimeAgo nowMs ts =
      (if (nowMs - ts).toNat / 60000 < 1 then "Just now"
       else if (nowMs - ts).toNat / 60000 < 60 then
         toString ((nowMs - ts).toNat / 60000) ++ "m ago"
       else if (nowMs - ts).toNat / 3600000 < 24 then
         toString ((nowMs - ts).toNat / 3600000) ++ "h ago"
       else toString ((nowMs - ts).toNat / 86400000) ++ "d ago") := by
  obtain ⟨k, hk⟩ := Int.le.dest h
  have hdiff : nowMs - ts = (k : Int) := by omega
  have h1 : Int.fdiv (k : Int) 60000 = ((k / 60000 : Nat) : Int) := by
    simpa using fdiv_natCast k 60000
  have h2 : Int.fdiv ((k / 60000 : Nat) : Int) 60 = ((k / 60000 / 60 : Nat) : Int) := by
    simpa using fdiv_natCast (k / 60000) 60
  have h3 : Int.fdiv ((k / 3600000 : Nat) : Int) 24
      = ((k / 3600000 / 24 : Nat) : Int) := by
    simpa using fdiv_natCast (k / 3600000) 24
  have hh : k / 60000 / 60 = k / 3600000 := by
    rw [Nat.div_div_eq_div_mul]
  have hd : k / 3600000 / 24 = k / 86400000 := by
    rw [Nat.div_div_eq_div_mul]
  have hc1 : (((k / 60000 : Nat) : Int) < 1) ↔ (k / 60000 < 1) := by omega
  have hc2 : (((k / 60000 : Nat) : Int) < 60) ↔ (k / 60000 < 60) := by omega
  have hc3 : (((k / 3600000 : Nat) : Int) < 24) ↔ (k / 3600000 < 24) := by omega
  simp only [formatTimeAgo, hdiff, Int.toNat_natCast, h1, h2, h3, hh, hd,
    hc1, hc2, hc3, toString_natCast]

/-- C5 witness: one day and a bit in the past formats as "1d ago". -/
theorem formatTimeAgo_past_witness :
    formatTimeAgo 90061000 1000 = "1d ago" := by
  have h := formatTimeAgo_past 90061000 1000 (by decide)
  rw [h]
  decide

/-- C9: a publication timestamp strictly in the future falls into the
under-one-minute branch, so `formatTimeAgo` returns "Just now". -/
theorem formatTimeAgo_future_just_now (nowMs ts : Int) (h : nowMs < ts) :
    formatTimeAgo nowMs ts = "Just now" := by
  have hneg : nowMs - ts < 0 := by omega
  have hlt : Int.fdiv (nowMs - ts) 60000 < 1 := by
    have he : Int.fdiv (nowMs - ts) 60000 = (nowMs - ts) / 60000 :=
      Int.fdiv_eq_ediv _ (by decide)
    omega
  simp [formatTimeAgo, hlt]

/-- C9 witness: a timestamp five seconds in the future yields "Just now". -/
theorem formatTimeAgo_future_witness : formatTimeAgo 0 5000 = "Just now" :=
  formatTimeAgo_future_just_now 0 5000 (by decide)

/-- C8: `impactLabel` is "Volatility spike" exactly when
volatilityScore ≥ 70; otherwise "Risk-on" exactly when biasScore ≥ 0.25;
otherwise "Risk-off" exactly when biasScore ≤ -0.25; otherwise "Mixed";
and the label depends only on volatilityScore and biasScore. -/
theorem impactLabel_characterisation (a : NewsArticle) :
    ((impactLabel a).text = "Volatility spike" ↔ 70 ≤ a.volatilityScore) ∧
    ((impactLabel a).text = "Risk-on" ↔
      (a.volatilityScore < 70 ∧ (0.25 : ℚ) ≤ a.biasScore)) ∧
    ((impactLabel a).text = "Risk-off" ↔
      (a.volatilityScore < 70 ∧ a.biasScore < (0.25 : ℚ) ∧
        a.biasScore ≤ (-0.25 : ℚ))) ∧
    ((impactLabel a).text = "Mixed" ↔
      (a.volatilityScore < 70 ∧ (-0.25 : ℚ) < a.biasScore ∧
        a.biasScore < (0.25 : ℚ))) ∧
    (∀ b : NewsArticle, a.volatilityScore = b.volatilityScore →
      a.biasScore = b.biasScore → impactLabel a = impactLabel b) := by
  refine ⟨?_, ?_, ?_, ?_, ?_⟩
  · unfold impactLabel
    split_ifs with h1 h2 h3 <;> simp_all [not_and, not_le, not_lt]
  · unfold impactLabel
    split_ifs with h1 h2 h3 <;> simp_all [not_and, not_le, not_lt]
  · unfold impactLabel
    split_ifs with h1 h2 h3 <;> simp_all [not_and, not_le, not_lt]
  · unfold impactLabel
    split_ifs with h1 h2 h3 <;> simp_all [not_and, not_le, not_lt]
  · intro b hv hb
    simp only [impactLabel, hv, hb]

/-- Sample article used by witnesses: high volatility, bearish pressure. -/
def sampleArticle : NewsArticle :=
  ⟨"a1", "Exchange X halts withdrawals", "summary", Sentiment.bearish, "market",
   ["BTC"], 0, "wire", Importance.high, "https://x", 85, 90, -(3/5 : ℚ),
   some ["halt", "liquidity", "exchange", "risk", "extra"]⟩

/-- Second sample article: the same volatility and bias scores as
`sampleArticle` but a different impact score and other fields. -/
def sampleArticle2 : NewsArticle :=
  ⟨"a2", "Other title", "s2", Sentiment.neutral, "defi", [], 500, "blog",
   Importance.low, "https://y", 10, 90, -(3/5 : ℚ), none⟩

/-- C8 witness: the sample article (volatility 90) is labelled
"Volatility spike", and the label agrees with that of a second article
that shares only its volatility and bias scores. -/
theorem impactLabel_characterisation_witness :
    (impactLabel sampleArticle).text = "Volatility spike" ∧
    impactLabel sampleArticle = impactLabel sampleArticle2 := by
  have h := impactLabel_characterisation sampleArticle
  exact ⟨h.1.mpr (by decide), h.2.2.2.2 sampleArticle2 rfl rfl⟩

/-- Bullish sample article with modest scores. -/
def sampleBullish : NewsArticle :=
  ⟨"b1", "ETF inflows surge", "s", Sentiment.bullish, "market", ["BTC"], 0,
   "wire", Importance.medium, "https://b", 40, 20, (1/2 : ℚ), none⟩

/-- Neutral sample article with modest scores. -/
def sampleNeutral : NewsArticle :=
  ⟨"n1", "Hash rate steady", "s", Sentiment.neutral, "technology", [], 0,
   "wire", Importance.low, "https://n", 10, 5, 0, none⟩

/-- An article list with exactly one article of each sentiment. -/
def mixedTriple : List NewsArticle := [sampleBullish, sampleNeutral, sampleArticle]

/-- C10, counterexample: for a list with one article of each sentiment the
tallies do partition the list, but each rendered width is the binary64
value 4691249611844266 * 2 ^ (-47) = 33.33333333333332859…, so the three
width percentages sum to 14073748835532798 * 2 ^ (-47) =
99.99999999999998578…, not 100. -/
theorem width_sum_below_100 :
    bullishCount mixedTriple + bearishCount mixedTriple + neutralCount mixedTriple
      = mixedTriple.length ∧
    mixedTriple.length ≠ 0 ∧
    bullishWidth mixedTriple + neutralWidth mixedTriple + bearishWidth mixedTriple
      ≠ 100 := by
  refine ⟨by decide, by decide, ?_⟩
  have hb : mul100B64 (fdivB64 (bullishCount mixedTriple) mixedTriple.length)
      = ⟨4691249611844266, -47⟩ := by decide
  have hn : mul100B64 (fdivB64 (neutralCount mixedTriple) mixedTriple.length)
      = ⟨4691249611844266, -47⟩ := by decide
  have hr : mul100B64 (fdivB64 (bearishCount mixedTriple) mixedTriple.length)
      = ⟨4691249611844266, -47⟩ := by decide
  have hlen : mixedTriple.length > 0 := by decide
  simp only [bullishWidth, neutralWidth, bearishWidth, if_pos hlen, hb, hn, hr]
  simp only [F64.toRat]
  norm_num

/-- C10, amended: the three sentiment tallies partition every article list
(sentiment takes exactly one of the three values), so the width
percentages sum to exactly 100 in exact arithmetic whenever the list is
non-empty (and to 0 when it is empty); the binary64 widths the program
renders can differ from 100 by rounding. -/
theorem sentiment_partition_amended (news : List NewsArticle) :
    bullishCount news + bearishCount news + neutralCount news = news.length ∧
    bullishWidthExact news + neutralWidthExact news + bearishWidthExact news =
      (if news.length = 0 then 0 else (100 : ℚ)) := by
  have hsum : ∀ l : List NewsArticle,
      bullishCount l + bearishCount l + neutralCount l = l.length := by
    intro l
    induction l with
    | nil => rfl
    | cons hd t ih =>
      cases hs : hd.sentiment <;>
        simp only [bullishCount, bearishCount, neutralCount,
          List.filter_cons, hs, List.length_cons] at ih ⊢ <;>
        simp <;> omega
  refine ⟨hsum news, ?_⟩
  by_cases h0 : news.length = 0
  · simp [bullishWidthExact, neutralWidthExact, bearishWidthExact, h0]
  · have hpos : 0 < news.length := Nat.pos_of_ne_zero h0
    have hne : ((news.length : ℚ)) ≠ 0 := by exact_mod_cast h0
    have hq : (bullishCount news : ℚ) + bearishCount news + neutralCount news
        = (news.length : ℚ) := by exact_mod_cast hsum news
    simp only [bullishWidthExact, neutralWidthExact, bearishWidthExact,
      if_pos hpos, if_neg h0]
    field_simp
    linarith

example : botBaseAsset (some "eth/usdc") = "ETH" := by decide
example : botBaseAsset none = "BTC" := by decide
example : (newsUrl "BTC" "all" "  ").params.lookup "q" = none := by decide
example : (newsUrl "BTC" "all" " x ").params.lookup "q" = some "x" := by decide
example : formatTimeAgo 7200000 0 = "2h ago" := by decide
example : formatTimeAgo 0 5000 = "Just now" := by decide
example : formatTimeAgo 119999 0 = "1m ago" := by decide

end News
